import Mathlib

/-
  Verification of the AI-engine orchestration core (src/ai/src/main.py).

  Shallow embedding: the gRPC service handlers of `AIEngine` become pure
  functions on an explicit `EngineState`.  The process-global registries
  (`data_managers`, `connector_managers`, `Trainer.SAVED_MODELS`), the work
  queue and the training lock become fields of that state.  Python dicts are
  modelled as association lists; timestamps (`pd.Timestamp`) as `Int` seconds;
  the pandas index of `massive_table_filled` as a sorted `List Int` of
  timestamps.  A Python `KeyError` (failed dict or index lookup) becomes an
  explicit `keyError` outcome rather than a response.
-/

namespace AIEngineMain

/-- Association-list lookup, modelling Python `d[k]` / `k in d` on a dict. -/
def alookup {A : Type} (k : String) : List (String × A) → Option A
  | [] => none
  | kv :: rest => if kv.1 = k then some kv.2 else alookup k rest

/-- Membership test on a dict, modelling Python `k in d` / `k not in d`. -/
def hasKey {A : Type} (k : String) (l : List (String × A)) : Bool :=
  (alookup k l).isSome

/-- In-place overwrite of an existing key, modelling Python `d[k].f = v`
style mutation of a value already present (no insertion when absent). -/
def aupdate {A : Type} (k : String) (v : A) : List (String × A) → List (String × A)
  | [] => []
  | kv :: rest => if kv.1 = k then (k, v) :: rest else kv :: aupdate k v rest

/-- Insert-or-overwrite, modelling Python `d[k] = v`. -/
def aset {A : Type} (k : String) (v : A) (l : List (String × A)) : List (String × A) :=
  (k, v) :: List.filter (fun kv => kv.1 != k) l

/-- `aiengine_pb2.Response(result=…, message=…, error=…)`; omitted proto
fields default to `""` / `false`. -/
structure Response where
  result : String
  message : String
  error : Bool
deriving DecidableEq

/-- The per-pod epoch window held in `data_manager.param`:
`epoch_time`, `end_time` (timestamps in seconds) and `period_secs`. -/
structure DataParam where
  epoch_time : Int
  end_time : Int
  period_secs : Int
deriving DecidableEq

/-- The slice of a `DataManager` the orchestration core reads:
the epoch-window parameters, the (sorted) timestamp index of
`massive_table_filled`, and the value of `get_window_span()`. -/
structure DataManager where
  param : DataParam
  table_index : List Int
  window_span : Nat
deriving DecidableEq

/-- The arguments handed to `dispatch_train_agent` / `train_agent`:
one ephemeral training job. -/
structure TrainingJob where
  pod : String
  algorithm : String
  number_episodes : Nat
  flight : String
  training_goal : String
deriving DecidableEq

/-- `aiengine_pb2.StartTrainingRequest` (proto scalar defaults: 0 / ""). -/
structure StartTrainingRequest where
  pod : String
  epoch_time : Int
  learning_algorithm : String
  number_episodes : Nat
  flight : String
  training_goal : String
deriving DecidableEq

/-- `aiengine_pb2.InitRequest`: actions as (name, reward-expression) pairs,
the external reward functions blob, and the declared field names. -/
structure InitRequest where
  pod : String
  actions : List (String × String)
  external_reward_funcs : String
  fields : List String
deriving DecidableEq

/-- `aiengine_pb2.ImportModelRequest`. -/
structure ImportModelRequest where
  pod : String
  import_path : String
deriving DecidableEq

/-- `aiengine_pb2.ExportModelRequest`. -/
structure ExportModelRequest where
  pod : String
  tag : String
deriving DecidableEq

/-- A command on the work queue: `("add_data", request)` or
`("init", request)` tuples pushed by `AddData` / `Init`. -/
inductive Command where
  | addData (pod : String)
  | initCmd (r : InitRequest)
deriving DecidableEq

/-- The process-global mutable state of main.py:
`data_managers`, `connector_managers` (presence only — the manager object is
opaque to this core), `Trainer.SAVED_MODELS`, whether
`Trainer.TRAINING_LOCK` is held (a training run is active), the
`work_queue`, and the list of training jobs launched so far
(each `Dispatch.TRAINING_THREAD.start()`). -/
structure EngineState where
  data_managers : List (String × DataManager)
  connector_managers : List String
  saved_models : List (String × String)
  training_active : Bool
  work_queue : List Command
  jobs : List TrainingJob
deriving DecidableEq

/-- The empty state at process start (lines 28-35 of main.py). -/
def initialState : EngineState :=
  ⟨[], [], [], false, [], []⟩

/-- `GetHealth` (line 62): constant ok. -/
def GetHealth : Response := ⟨"ok", "", false⟩

/-- `AddData` (lines 65-68): enqueue `("add_data", request)`, return ok. -/
def AddData (s : EngineState) (pod : String) : Response × EngineState :=
  (⟨"ok", "", false⟩, { s with work_queue := s.work_queue ++ [Command.addData pod] })

/-- `Init` (lines 114-128).  `validate_rewards` lives in validation.py,
which is not under src/, so it is passed in as an abstract boolean predicate
on the actions and the external reward functions (per the spec it returns
false exactly when a reward function is malformed or references an
undeclared action/field). -/
def Init (validate_rewards : List (String × String) → String → Bool)
    (s : EngineState) (r : InitRequest) : Response × EngineState :=
  if r.actions.length = 0 then (⟨"missing_actions", "", true⟩, s)
  else if validate_rewards r.actions r.external_reward_funcs = false then
    (⟨"invalid_reward_function", "", true⟩, s)
  else if r.fields.length = 0 then (⟨"missing_fields", "", true⟩, s)
  else (⟨"ok", "", false⟩, { s with work_queue := s.work_queue ++ [Command.initCmd r] })

/-- `dispatch_train_agent` (lines 48-58): if `Trainer.TRAINING_LOCK.locked()`
return False without starting work; otherwise start a training thread and
return True.  Modelled from the spec: the Training Dispatcher state machine
(Idle/Training) — Trainer, which acquires and releases TRAINING_LOCK around
the run, lives in train.py which is not under src/, so the transition to
Training is taken atomically at dispatch, per §4.3 of the spec. -/
def dispatch_train_agent (s : EngineState) (job : TrainingJob) : Bool × EngineState :=
  if s.training_active then (false, s)
  else (true, { s with training_active := true, jobs := s.jobs ++ [job] })

/-- `pandas.Index.get_loc(t, "ffill")` on the sorted timestamp index:
position of the nearest index value preceding-or-equal to `t`;
KeyError (`none`) when every index value is after `t` (or the index is
empty). -/
def get_loc_ffill (index : List Int) (t : Int) : Option Nat :=
  let n := (index.filter (fun x => x ≤ t)).length
  if n = 0 then none else some (n - 1)

/-- Lines 87-88: `data_manager.param.epoch_time = new_epoch_time;
data_manager.param.end_time = epoch_time + period_secs`. -/
def epochUpdate (dm : DataManager) (t : Int) : DataManager :=
  { dm with param := ⟨t, t + dm.param.period_secs, dm.param.period_secs⟩ }

/-- The epoch_time_invalid response of lines 82-86 (`.timestamp()` of the
stored epoch rendered into the message). -/
def epochInvalidResp (dm : DataManager) : Response :=
  ⟨"epoch_time_invalid", "epoch time should be after " ++ toString dm.param.epoch_time, true⟩

/-- Lines 79-88: the epoch branch of `StartTraining`.  Skipped entirely when
`request.epoch_time == 0`; rejects a new epoch strictly earlier than the
stored one; otherwise moves the epoch window. -/
def epochCheck (dm : DataManager) (et : Int) : Sum Response DataManager :=
  if et ≠ 0 then
    if et < dm.param.epoch_time then Sum.inl (epochInvalidResp dm)
    else Sum.inr (epochUpdate dm et)
  else Sum.inr dm

/-- Outcome of a `StartTraining` call: a gRPC response, or an uncaught
`KeyError` from a dict/index lookup (named by its source). -/
inductive STOutcome where
  | resp (r : Response)
  | keyError (source : String)
deriving DecidableEq

/-- Result of `StartTraining`: outcome, the state after the call (Python
mutates `data_manager.param` in place, so the state can change even on an
error outcome), and whether a training job was dispatched. -/
structure STResult where
  outcome : STOutcome
  state : EngineState
  dispatched : Bool
deriving DecidableEq

/-- The engine state after the (in-place) epoch-window mutation of
lines 87-88 — `data_manager` is the object stored in `data_managers`, so
writing its `param` updates the registry entry for `r.pod`. -/
def stUpd (s : EngineState) (r : StartTrainingRequest) (dm2 : DataManager) : EngineState :=
  { s with data_managers := aupdate r.pod dm2 s.data_managers }

/-- The training job `StartTraining` hands to `dispatch_train_agent`
(lines 90-93 and 105-106); `number_episodes` defaults to 30 on the zero
sentinel (line 91). -/
def stJob (r : StartTrainingRequest) : TrainingJob :=
  ⟨r.pod, r.learning_algorithm, if r.number_episodes ≠ 0 then r.number_episodes else 30,
    r.flight, r.training_goal⟩

/-- Lines 90-108 of `StartTraining`, entered with the (possibly updated)
data manager `dm2` already written back: the window-span data check and the
dispatch. -/
def afterEpoch (s : EngineState) (r : StartTrainingRequest) (dm2 : DataManager) : STResult :=
  match get_loc_ffill dm2.table_index dm2.param.epoch_time with
  | none => ⟨STOutcome.keyError "massive_table_filled.index.get_loc", stUpd s r dm2, false⟩
  | some i =>
    if dm2.table_index.length - i < dm2.window_span then
      ⟨STOutcome.resp ⟨"not_enough_data_for_training", "", true⟩, stUpd s r dm2, false⟩
    else
      let d := dispatch_train_agent (stUpd s r dm2) (stJob r)
      ⟨STOutcome.resp ⟨if d.1 then "started_training" else "already_training", "", false⟩,
        d.2, d.1⟩

/-- `StartTraining` (lines 75-108).  Lines 76-77 are unguarded dict lookups:
a pod absent from `data_managers` or `connector_managers` raises KeyError. -/
def StartTraining (s : EngineState) (r : StartTrainingRequest) : STResult :=
  match alookup r.pod s.data_managers with
  | none => ⟨STOutcome.keyError "data_managers", s, false⟩
  | some dm =>
    if r.pod ∈ s.connector_managers then
      match epochCheck dm r.epoch_time with
      | Sum.inl resp => ⟨STOutcome.resp resp, s, false⟩
      | Sum.inr dm2 => afterEpoch s r dm2
    else ⟨STOutcome.keyError "connector_managers", s, false⟩

/-- Outcome of `ExportModel`: a result with a model path, an error response,
or the runtime error raised by line 140, whose
`ExportModelResult(resopnse=…)` constructor call names a field that does not
exist (misspelled keyword), so the pod_not_initialized branch raises instead
of returning. -/
inductive ExportOutcome where
  | ok (r : Response) (model_path : String)
  | err (r : Response)
  | raiseUnknownField
deriving DecidableEq

/-- The `result` code an ExportModel caller observes. -/
def ExportOutcome.resultCode : ExportOutcome → String
  | ExportOutcome.ok r _ => r.result
  | ExportOutcome.err r => r.result
  | ExportOutcome.raiseUnknownField => "raise:unknown_field_resopnse"

/-- `ExportModel` (lines 130-151): pod_not_trained when no saved model,
then the (raising) pod_not_initialized branch, then the tag gate, then the
recorded artifact path. -/
def ExportModel (s : EngineState) (r : ExportModelRequest) : ExportOutcome :=
  match alookup r.pod s.saved_models with
  | none => ExportOutcome.err
      ⟨"pod_not_trained",
        "Unable to export a model that has not finished at least one training run", true⟩
  | some path =>
    if hasKey r.pod s.data_managers = false then ExportOutcome.raiseUnknownField
    else if r.tag ≠ "latest" then
      ExportOutcome.err ⟨"tag_not_yet_supported", "Support for multiple tags coming soon!", true⟩
    else ExportOutcome.ok ⟨"ok", "", false⟩ path

/-- The external collaborators `ImportModel` consults: the filesystem
(whether `import_path/meta.json` exists and which algorithm it names) and
the agent loader (`get_agent(...).load(import_path)`); all outside src/. -/
structure World where
  meta_exists : String → Bool
  meta_algorithm : String → String
  load_ok : String → String → Bool

/-- `ImportModel` (lines 153-179): requires the pod initialized, the
metadata file present and the agent load to succeed; on success records
`import_path` in `Trainer.SAVED_MODELS`. -/
def ImportModel (w : World) (s : EngineState) (r : ImportModelRequest) :
    Response × EngineState :=
  if hasKey r.pod s.data_managers = false then (⟨"pod_not_initialized", "", true⟩, s)
  else if w.meta_exists r.import_path = false then
    (⟨"unable_to_load_model_metadata",
      "Unable to find meta data at " ++ r.import_path, true⟩, s)
  else if w.load_ok (w.meta_algorithm r.import_path) r.import_path = false then
    (⟨"unable_to_load_model", "Unable to find a model at " ++ r.import_path, true⟩, s)
  else (⟨"ok", "", false⟩, { s with saved_models := aset r.pod r.import_path s.saved_models })

/-- Modelled from the spec: Event Loop processing of an `("init", request)`
command (event_loop.py and data.py are not under src/) — constructs the
pod's Data Manager and Connector Manager handles and inserts them into the
registries (§4.2); insertion is the only Pod Registry mutation and no
deletion operation exists (§4.4). -/
def processInit (pod : String) (dm : DataManager) (s : EngineState) : EngineState :=
  { s with data_managers := aset pod dm s.data_managers,
           connector_managers := pod :: s.connector_managers }

/-- Modelled from the spec: completion of a launched training job (train.py
is not under src/) — the Training Dispatcher transitions back to Idle and,
on success, writes the artifact location for the trained pod into the Model
Registry (§4.3). -/
def completeTraining (success_path : Option String) (j : TrainingJob)
    (s : EngineState) : EngineState :=
  { s with training_active := false,
           saved_models :=
             match success_path with
             | some p => aset j.pod p s.saved_models
             | none => s.saved_models }

/-- One observable transition of the system: any request handler applied in
any order, Event Loop init processing, or completion of a previously
launched training job. -/
inductive Step : EngineState → EngineState → Prop where
  | add_data : ∀ s pod, Step s (AddData s pod).2
  | init_req : ∀ s vr r, Step s (Init vr s r).2
  | proc_init : ∀ s pod dm, Step s (processInit pod dm s)
  | start_training : ∀ s r, Step s (StartTraining s r).state
  | import_model : ∀ s w r, Step s (ImportModel w s r).2
  | complete : ∀ s p j, j ∈ s.jobs → Step s (completeTraining p j s)

/-- States reachable from process start. -/
inductive Reachable : EngineState → Prop where
  | refl : Reachable initialState
  | step : ∀ {s t}, Reachable s → Step s t → Reachable t

/-- The stored epoch_time of a pod, when initialized. -/
def epochOf (s : EngineState) (pod : String) : Option Int :=
  (alookup pod s.data_managers).map (fun dm => dm.param.epoch_time)

/-- The stored end_time of a pod, when initialized. -/
def endTimeOf (s : EngineState) (pod : String) : Option Int :=
  (alookup pod s.data_managers).map (fun dm => dm.param.end_time)

/-- A sequence of StartTraining calls, threading the state. -/
def runStartTrainings (s : EngineState) : List StartTrainingRequest → EngineState
  | [] => s
  | r :: rest => runStartTrainings (StartTraining s r).state rest

/-- The result code carried by an outcome (`none` on KeyError). -/
def codeOf : STOutcome → Option String
  | STOutcome.resp r => some r.result
  | STOutcome.keyError _ => none

/-- The result code a StartTraining caller observes (`none` on KeyError). -/
def stResultCode (x : STResult) : Option String := codeOf x.outcome

/-- The caller received `started_training`. -/
def isStarted (x : STResult) : Prop := stResultCode x = some "started_training"

instance (x : STResult) : Decidable (isStarted x) := by
  unfold isStarted; infer_instance

/-- Exactly one of two StartTraining callers received `started_training`. -/
def exactlyOneStarted (a b : STResult) : Prop :=
  (isStarted a ∧ ¬ isStarted b) ∨ (¬ isStarted a ∧ isStarted b)

instance (a b : STResult) : Decidable (exactlyOneStarted a b) := by
  unfold exactlyOneStarted; infer_instance

/-- Registry-coverage invariant: every pod with a saved model, and every pod
of a launched training job, is a key of `data_managers`. -/
def PodsCovered (s : EngineState) : Prop :=
  (∀ pod path, alookup pod s.saved_models = some path → hasKey pod s.data_managers = true) ∧
  (∀ j, j ∈ s.jobs → hasKey j.pod s.data_managers = true)

/-! ### Concrete example states (for witnesses and counterexamples) -/

/-- A data manager with epoch 100, period 60 and four rows of filled data;
window span 2, so training data suffices from epoch 100 on. -/
def dmEx : DataManager := ⟨⟨100, 160, 60⟩, [90, 100, 110, 120], 2⟩

/-- Same data but window span 10: never enough rows. -/
def dmShortEx : DataManager := ⟨⟨100, 160, 60⟩, [90, 100, 110, 120], 10⟩

/-- Pod "p" initialized, no training active. -/
def sIdleEx : EngineState := ⟨[("p", dmEx)], ["p"], [], false, [], []⟩

/-- Pod "p" initialized, a training job active (lock held). -/
def sActiveEx : EngineState := ⟨[("p", dmEx)], ["p"], [], true, [], []⟩

/-- Pod "p" initialized with too little data, no training active. -/
def sShortEx : EngineState := ⟨[("p", dmShortEx)], ["p"], [], false, [], []⟩

/-- StartTraining for pod "p" without an epoch (zero sentinel). -/
def reqEx : StartTrainingRequest := ⟨"p", 0, "dql", 5, "f1", "score"⟩

/-- StartTraining for pod "p" moving the epoch forward to 150. -/
def reqFwdEx : StartTrainingRequest := ⟨"p", 150, "dql", 5, "f1", "score"⟩

/-- StartTraining for pod "p" attempting to move the epoch back to 50. -/
def reqBackEx : StartTrainingRequest := ⟨"p", 50, "dql", 5, "f1", "score"⟩

/-- A world where the metadata file exists and the agent loads. -/
def wTrueEx : World := ⟨fun _ => true, fun _ => "dql", fun _ _ => true⟩

/-- Reachable state: pod "p" initialized by the Event Loop. -/
def sInitEx : EngineState := processInit "p" dmEx initialState

/-- Reachable state: pod "p" initialized, then a model imported for it. -/
def sImportedEx : EngineState := (ImportModel wTrueEx sInitEx ⟨"p", "/models/p"⟩).2

/-! ### Association-list lemmas -/

theorem alookup_aupdate_ne {A : Type} (k q : String) (v : A) (l : List (String × A))
    (h : q ≠ k) : alookup q (aupdate k v l) = alookup q l := by
  induction l with
  | nil => rfl
  | cons kv rest ih =>
    by_cases hk : kv.1 = k
    · simp only [aupdate, if_pos hk, alookup]
      have hkq : k ≠ q := fun e => h e.symm
      have hq : kv.1 ≠ q := by rw [hk]; exact hkq
      rw [if_neg hkq, if_neg hq]
    · simp only [aupdate, if_neg hk, alookup, ih]

theorem alookup_aupdate_self {A : Type} (k : String) (v w : A) (l : List (String × A))
    (h : alookup k l = some w) : alookup k (aupdate k v l) = some v := by
  induction l with
  | nil => simp [alookup] at h
  | cons kv rest ih =>
    by_cases hk : kv.1 = k
    · simp [aupdate, if_pos hk, alookup]
    · simp only [alookup, if_neg hk] at h
      simp only [aupdate, if_neg hk, alookup, if_neg hk]
      exact ih h

theorem aupdate_of_absent {A : Type} (k : String) (v : A) (l : List (String × A))
    (h : alookup k l = none) : aupdate k v l = l := by
  induction l with
  | nil => rfl
  | cons kv rest ih =>
    by_cases hk : kv.1 = k
    · simp [alookup, if_pos hk] at h
    · simp only [alookup, if_neg hk] at h
      simp only [aupdate, if_neg hk, ih h]

theorem hasKey_aupdate {A : Type} (k q : String) (v : A) (l : List (String × A)) :
    hasKey q (aupdate k v l) = hasKey q l := by
  by_cases hq : q = k
  · subst hq
    cases h : alookup q l with
    | none => rw [hasKey, aupdate_of_absent q v l h, ← hasKey]
    | some w => rw [hasKey, alookup_aupdate_self q v w l h, hasKey, h]; rfl
  · rw [hasKey, alookup_aupdate_ne k q v l hq, ← hasKey]

theorem alookup_filter_ne {A : Type} (k q : String) (l : List (String × A)) (h : q ≠ k) :
    alookup q (l.filter (fun kv => kv.1 != k)) = alookup q l := by
  induction l with
  | nil => rfl
  | cons kv rest ih =>
    rw [List.filter_cons]
    by_cases hk : kv.1 = k
    · have hpred : (kv.1 != k) = false := by simp [hk]
      have hq : kv.1 ≠ q := fun e => h (e ▸ hk)
      simp only [hpred, Bool.false_eq_true, if_false, ih, alookup, if_neg hq]
    · have hpred : (kv.1 != k) = true := by simp [hk]
      simp only [hpred, if_true, alookup, ih]

theorem alookup_aset_self {A : Type} (k : String) (v : A) (l : List (String × A)) :
    alookup k (aset k v l) = some v := by
  simp [aset, alookup]

theorem alookup_aset_ne {A : Type} (k q : String) (v : A) (l : List (String × A))
    (h : q ≠ k) : alookup q (aset k v l) = alookup q l := by
  simp only [aset, alookup, if_neg (fun hk : k = q => h hk.symm)]
  exact alookup_filter_ne k q l h

theorem hasKey_aset_of_hasKey {A : Type} (k q : String) (v : A) (l : List (String × A))
    (h : hasKey q l = true) : hasKey q (aset k v l) = true := by
  by_cases hq : q = k
  · subst hq; rw [hasKey, alookup_aset_self]; rfl
  · rw [hasKey, alookup_aset_ne k q v l hq, ← hasKey]; exact h

/-! ### Path lemmas for StartTraining -/

theorem StartTraining_eq_none (s : EngineState) (r : StartTrainingRequest)
    (h : alookup r.pod s.data_managers = none) :
    StartTraining s r = ⟨STOutcome.keyError "data_managers", s, false⟩ := by
  unfold StartTraining; rw [h]

theorem StartTraining_eq_some (s : EngineState) (r : StartTrainingRequest) (dm : DataManager)
    (h : alookup r.pod s.data_managers = some dm) :
    StartTraining s r =
      if r.pod ∈ s.connector_managers then
        match epochCheck dm r.epoch_time with
        | Sum.inl resp => ⟨STOutcome.resp resp, s, false⟩
        | Sum.inr dm2 => afterEpoch s r dm2
      else ⟨STOutcome.keyError "connector_managers", s, false⟩ := by
  unfold StartTraining; rw [h]

theorem epochCheck_zero (dm : DataManager) : epochCheck dm 0 = Sum.inr dm := by
  simp [epochCheck]

theorem epochCheck_reject (dm : DataManager) (et : Int) (hnz : et ≠ 0)
    (hlt : et < dm.param.epoch_time) :
    epochCheck dm et = Sum.inl (epochInvalidResp dm) := by
  simp [epochCheck, hnz, hlt]

theorem epochCheck_advance (dm : DataManager) (et : Int) (hnz : et ≠ 0)
    (hge : ¬ et < dm.param.epoch_time) :
    epochCheck dm et = Sum.inr (epochUpdate dm et) := by
  simp [epochCheck, hnz, hge]

theorem epochCheck_inr (dm dm2 : DataManager) (et : Int)
    (h : epochCheck dm et = Sum.inr dm2) :
    dm2 = dm ∨ (et ≠ 0 ∧ ¬ et < dm.param.epoch_time ∧ dm2 = epochUpdate dm et) := by
  by_cases hnz : et = 0
  · subst hnz; rw [epochCheck_zero] at h; exact Or.inl (Sum.inr.inj h).symm
  · by_cases hlt : et < dm.param.epoch_time
    · rw [epochCheck_reject dm et hnz hlt] at h; exact absurd h (by simp)
    · rw [epochCheck_advance dm et hnz hlt] at h
      exact Or.inr ⟨hnz, hlt, (Sum.inr.inj h).symm⟩

theorem epochCheck_inr_epoch_ge (dm dm2 : DataManager) (et : Int)
    (h : epochCheck dm et = Sum.inr dm2) :
    dm.param.epoch_time ≤ dm2.param.epoch_time := by
  rcases epochCheck_inr dm dm2 et h with h1 | ⟨_, hge, h2⟩
  · subst h1; exact le_refl _
  · subst h2; exact le_of_not_lt hge

theorem afterEpoch_state_cases (s : EngineState) (r : StartTrainingRequest)
    (dm2 : DataManager) :
    (afterEpoch s r dm2).state = stUpd s r dm2 ∨
    (afterEpoch s r dm2).state =
      { stUpd s r dm2 with training_active := true, jobs := s.jobs ++ [stJob r] } := by
  unfold afterEpoch
  cases hloc : get_loc_ffill dm2.table_index dm2.param.epoch_time with
  | none => left; rfl
  | some i =>
    by_cases hins : dm2.table_index.length - i < dm2.window_span
    · left; simp only [if_pos hins]
    · simp only [if_neg hins, dispatch_train_agent]
      by_cases hact : (stUpd s r dm2).training_active
      · left; simp only [if_pos hact]
      · right; simp only [if_neg hact]; rfl

theorem afterEpoch_outcome_cases (s : EngineState) (r : StartTrainingRequest)
    (dm2 : DataManager) :
    (afterEpoch s r dm2).outcome = STOutcome.keyError "massive_table_filled.index.get_loc" ∨
    (afterEpoch s r dm2).outcome = STOutcome.resp ⟨"not_enough_data_for_training", "", true⟩ ∨
    (afterEpoch s r dm2).outcome = STOutcome.resp ⟨"started_training", "", false⟩ ∨
    (afterEpoch s r dm2).outcome = STOutcome.resp ⟨"already_training", "", false⟩ := by
  unfold afterEpoch
  cases hloc : get_loc_ffill dm2.table_index dm2.param.epoch_time with
  | none => left; rfl
  | some i =>
    by_cases hins : dm2.table_index.length - i < dm2.window_span
    · right; left; simp only [if_pos hins]
    · simp only [if_neg hins, dispatch_train_agent]
      by_cases hact : (stUpd s r dm2).training_active
      · right; right; right; simp only [if_pos hact]; rfl
      · right; right; left; simp only [if_neg hact]; rfl

theorem StartTraining_state_cases (s : EngineState) (r : StartTrainingRequest) :
    (StartTraining s r).state = s ∨
    ∃ dm dm2, alookup r.pod s.data_managers = some dm ∧
      epochCheck dm r.epoch_time = Sum.inr dm2 ∧
      ((StartTraining s r).state = stUpd s r dm2 ∨
       (StartTraining s r).state =
         { stUpd s r dm2 with training_active := true, jobs := s.jobs ++ [stJob r] }) := by
  cases hdm : alookup r.pod s.data_managers with
  | none => left; rw [StartTraining_eq_none s r hdm]
  | some dm =>
    rw [StartTraining_eq_some s r dm hdm]
    by_cases hc : r.pod ∈ s.connector_managers
    · rw [if_pos hc]
      cases hec : epochCheck dm r.epoch_time with
      | inl resp => left; rfl
      | inr dm2 =>
        right
        exact ⟨dm, dm2, rfl, hec, afterEpoch_state_cases s r dm2⟩
    · rw [if_neg hc]; left; rfl

theorem StartTraining_state_saved_models (s : EngineState) (r : StartTrainingRequest) :
    (StartTraining s r).state.saved_models = s.saved_models := by
  rcases StartTraining_state_cases s r with h | ⟨dm, dm2, _, _, h | h⟩ <;> rw [h] <;> try rfl

theorem StartTraining_state_hasKey (s : EngineState) (r : StartTrainingRequest)
    (q : String) :
    hasKey q (StartTraining s r).state.data_managers = hasKey q s.data_managers := by
  rcases StartTraining_state_cases s r with h | ⟨dm, dm2, _, _, h | h⟩ <;> rw [h] <;>
    exact hasKey_aupdate r.pod q dm2 s.data_managers

theorem StartTraining_state_jobs_mem (s : EngineState) (r : StartTrainingRequest)
    (j : TrainingJob) (hj : j ∈ (StartTraining s r).state.jobs) :
    j ∈ s.jobs ∨ (j = stJob r ∧ hasKey r.pod s.data_managers = true) := by
  rcases StartTraining_state_cases s r with h | ⟨dm, dm2, hdm, _, h | h⟩ <;> rw [h] at hj
  · exact Or.inl hj
  · exact Or.inl hj
  · simp only [List.mem_append, List.mem_singleton] at hj
    rcases hj with hj | hj
    · exact Or.inl hj
    · exact Or.inr ⟨hj, by rw [hasKey, hdm]; rfl⟩

theorem epochOf_StartTraining_mono (s : EngineState) (r : StartTrainingRequest)
    (pod : String) (e : Int) (h : epochOf s pod = some e) :
    ∃ e2, epochOf (StartTraining s r).state pod = some e2 ∧ e ≤ e2 := by
  rcases StartTraining_state_cases s r with hst | ⟨dm, dm2, hdm, hec, hcase⟩
  · exact ⟨e, by rw [hst, h], le_refl e⟩
  · have hdmgr : (StartTraining s r).state.data_managers =
        aupdate r.pod dm2 s.data_managers := by
      rcases hcase with hst | hst <;> rw [hst] <;> rfl
    by_cases hq : pod = r.pod
    · subst hq
      rw [epochOf, hdm, Option.map_some'] at h
      refine ⟨dm2.param.epoch_time, ?_, ?_⟩
      · rw [epochOf, hdmgr, alookup_aupdate_self r.pod dm2 dm s.data_managers hdm,
          Option.map_some']
      · rw [← Option.some.inj h]
        exact epochCheck_inr_epoch_ge dm dm2 r.epoch_time hec
    · refine ⟨e, ?_, le_refl e⟩
      rw [epochOf, hdmgr, alookup_aupdate_ne r.pod pod dm2 s.data_managers hq, ← epochOf, h]

theorem epochUpdate_table_index (dm : DataManager) (et : Int) :
    (epochUpdate dm et).table_index = dm.table_index := rfl

theorem epochUpdate_window_span (dm : DataManager) (et : Int) :
    (epochUpdate dm et).window_span = dm.window_span := rfl

theorem epochUpdate_epoch (dm : DataManager) (et : Int) :
    (epochUpdate dm et).param.epoch_time = et := rfl

theorem epochUpdate_end (dm : DataManager) (et : Int) :
    (epochUpdate dm et).param.end_time = et + dm.param.period_secs := rfl

/-! ### Claims -/

/-- C2 counterexample: pod "p" is initialized but has no ModelRecord; an
ExportModel request with tag "v2" returns pod_not_trained, not the
tag_not_yet_supported the claim asserts for every training state. -/
theorem exportModel_tag_counterexample :
    (ExportModel sIdleEx ⟨"p", "v2"⟩).resultCode = "pod_not_trained" ∧
    (ExportModel sIdleEx ⟨"p", "v2"⟩).resultCode ≠ "tag_not_yet_supported" := by
  decide

/-- C2 (amended): an ExportModel request with tag different from "latest"
yields tag_not_yet_supported regardless of epoch or training-lock state,
provided the pod has a ModelRecord and is present in the Pod Registry; the
pod_not_trained and pod_not_initialized checks take precedence. -/
theorem exportModel_tag_gate (s : EngineState) (r : ExportModelRequest) (path : String)
    (hrec : alookup r.pod s.saved_models = some path)
    (hinit : hasKey r.pod s.data_managers = true)
    (htag : r.tag ≠ "latest") :
    ExportModel s r = ExportOutcome.err
      ⟨"tag_not_yet_supported", "Support for multiple tags coming soon!", true⟩ := by
  unfold ExportModel
  rw [hrec]
  simp [hinit, htag]

theorem exportModel_tag_gate_witness :
    ExportModel sImportedEx ⟨"p", "v2"⟩ = ExportOutcome.err
      ⟨"tag_not_yet_supported", "Support for multiple tags coming soon!", true⟩ :=
  exportModel_tag_gate sImportedEx ⟨"p", "v2"⟩ "/models/p" (by decide) (by decide) (by decide)

/-- C3: Init validation: an empty action list yields missing_actions; a
reward function rejected by the validator yields invalid_reward_function;
an empty field list yields missing_fields; each rejection returns the state
unchanged (nothing enqueued, registries untouched); otherwise an
("init", request) command is enqueued and the result is ok (the registries
are still untouched — mutation happens later in the Event Loop). -/
theorem init_validation (vr : List (String × String) → String → Bool)
    (s : EngineState) (r : InitRequest) :
    (r.actions = [] → Init vr s r = (⟨"missing_actions", "", true⟩, s)) ∧
    (r.actions ≠ [] → vr r.actions r.external_reward_funcs = false →
      Init vr s r = (⟨"invalid_reward_function", "", true⟩, s)) ∧
    (r.actions ≠ [] → vr r.actions r.external_reward_funcs = true → r.fields = [] →
      Init vr s r = (⟨"missing_fields", "", true⟩, s)) ∧
    (r.actions ≠ [] → vr r.actions r.external_reward_funcs = true → r.fields ≠ [] →
      Init vr s r = (⟨"ok", "", false⟩,
        { s with work_queue := s.work_queue ++ [Command.initCmd r] })) := by
  refine ⟨?_, ?_, ?_, ?_⟩
  · intro h1; simp [Init, h1]
  · intro h1 h2; simp [Init, List.length_eq_zero, h1, h2]
  · intro h1 h2 h3; simp [Init, List.length_eq_zero, h1, h2, h3]
  · intro h1 h2 h3; simp [Init, List.length_eq_zero, h1, h2, h3]

theorem init_validation_witness :
    Init (fun _ _ => true) sIdleEx ⟨"q", [("a1", "reward")], "", ["f1"]⟩ =
      (⟨"ok", "", false⟩, { sIdleEx with work_queue := sIdleEx.work_queue ++
        [Command.initCmd ⟨"q", [("a1", "reward")], "", ["f1"]⟩] }) :=
  (init_validation (fun _ _ => true) sIdleEx ⟨"q", [("a1", "reward")], "", ["f1"]⟩).2.2.2
    (by decide) rfl (by decide)

/-- C4: StartTraining with a nonzero epoch_time strictly earlier than the
pod's stored epoch_time returns epoch_time_invalid with a message naming
the minimum acceptable value (the stored epoch), leaves the entire state —
in particular the pod's Epoch Window — exactly as it was, and dispatches
nothing. -/
theorem startTraining_epoch_backward_rejected (s : EngineState)
    (r : StartTrainingRequest) (dm : DataManager)
    (hdm : alookup r.pod s.data_managers = some dm)
    (hconn : r.pod ∈ s.connector_managers)
    (hnz : r.epoch_time ≠ 0) (hlt : r.epoch_time < dm.param.epoch_time) :
    StartTraining s r = ⟨STOutcome.resp ⟨"epoch_time_invalid",
      "epoch time should be after " ++ toString dm.param.epoch_time, true⟩, s, false⟩ := by
  rw [StartTraining_eq_some s r dm hdm, if_pos hconn,
    epochCheck_reject dm r.epoch_time hnz hlt]
  rfl

theorem startTraining_epoch_backward_rejected_witness :
    StartTraining sIdleEx reqBackEx = ⟨STOutcome.resp ⟨"epoch_time_invalid",
      "epoch time should be after 100", true⟩, sIdleEx, false⟩ :=
  startTraining_epoch_backward_rejected sIdleEx reqBackEx dmEx (by decide) (by decide)
    (by decide) (by decide)

/-- C5: when fewer than window_span rows of filled data lie at or after the
nearest-preceding-or-equal index of the current epoch_time, StartTraining
returns not_enough_data_for_training and the Training Dispatcher is not
invoked: no job is launched and the training lock is untouched. -/
theorem startTraining_not_enough_data (s : EngineState) (r : StartTrainingRequest)
    (dm dm2 : DataManager) (i : Nat)
    (hdm : alookup r.pod s.data_managers = some dm)
    (hconn : r.pod ∈ s.connector_managers)
    (hec : epochCheck dm r.epoch_time = Sum.inr dm2)
    (hloc : get_loc_ffill dm2.table_index dm2.param.epoch_time = some i)
    (hins : dm2.table_index.length - i < dm2.window_span) :
    StartTraining s r = ⟨STOutcome.resp ⟨"not_enough_data_for_training", "", true⟩,
      stUpd s r dm2, false⟩ ∧
    (StartTraining s r).state.jobs = s.jobs ∧
    (StartTraining s r).state.training_active = s.training_active := by
  have h : StartTraining s r = ⟨STOutcome.resp ⟨"not_enough_data_for_training", "", true⟩,
      stUpd s r dm2, false⟩ := by
    rw [StartTraining_eq_some s r dm hdm, if_pos hconn, hec]
    show afterEpoch s r dm2 = _
    unfold afterEpoch
    rw [hloc]
    simp [hins]
  refine ⟨h, ?_, ?_⟩ <;> rw [h] <;> rfl

theorem startTraining_not_enough_data_witness :
    StartTraining sShortEx reqEx = ⟨STOutcome.resp ⟨"not_enough_data_for_training", "", true⟩,
      stUpd sShortEx reqEx dmShortEx, false⟩ ∧
    (StartTraining sShortEx reqEx).state.jobs = sShortEx.jobs ∧
    (StartTraining sShortEx reqEx).state.training_active = sShortEx.training_active :=
  startTraining_not_enough_data sShortEx reqEx dmShortEx dmShortEx 1 (by decide) (by decide)
    (by decide) (by decide) (by decide)

/-- C7: StartTraining for a pod that is not a key of the Pod Registry
raises the unknown-pod KeyError of the unguarded lookup at line 76: the
state is unchanged, nothing is dispatched, and the caller gets no
started_training/already_training response (no response at all). -/
theorem startTraining_unknown_pod (s : EngineState) (r : StartTrainingRequest)
    (h : alookup r.pod s.data_managers = none) :
    StartTraining s r = ⟨STOutcome.keyError "data_managers", s, false⟩ ∧
    stResultCode (StartTraining s r) = none := by
  refine ⟨StartTraining_eq_none s r h, ?_⟩
  rw [StartTraining_eq_none s r h]
  rfl

theorem startTraining_unknown_pod_witness :
    StartTraining initialState reqEx = ⟨STOutcome.keyError "data_managers", initialState, false⟩ ∧
    stResultCode (StartTraining initialState reqEx) = none :=
  startTraining_unknown_pod initialState reqEx (by decide)

theorem StartTraining_insufficient (s : EngineState) (r : StartTrainingRequest)
    (dm dm2 : DataManager) (i : Nat)
    (hdm : alookup r.pod s.data_managers = some dm)
    (hconn : r.pod ∈ s.connector_managers)
    (hec : epochCheck dm r.epoch_time = Sum.inr dm2)
    (hloc : get_loc_ffill dm2.table_index dm2.param.epoch_time = some i)
    (hins : dm2.table_index.length - i < dm2.window_span) :
    StartTraining s r = ⟨STOutcome.resp ⟨"not_enough_data_for_training", "", true⟩,
      stUpd s r dm2, false⟩ := by
  rw [StartTraining_eq_some s r dm hdm, if_pos hconn, hec]
  show afterEpoch s r dm2 = _
  unfold afterEpoch
  rw [hloc]
  simp [hins]

/-- C1 counterexample: with a training job active, two consecutive
StartTraining calls (the atomic-dispatch rendering of two concurrent
callers, in either interleaving) both return already_training, so it is
false that exactly one of the two callers receives started_training. -/
theorem startTraining_exactly_one_counterexample :
    stResultCode (StartTraining sActiveEx reqEx) = some "already_training" ∧
    stResultCode (StartTraining (StartTraining sActiveEx reqEx).state reqEx) =
      some "already_training" ∧
    ¬ exactlyOneStarted (StartTraining sActiveEx reqEx)
        (StartTraining (StartTraining sActiveEx reqEx).state reqEx) := by
  decide

/-- C1 (amended): single-flight dispatch. A StartTraining call that passes
validation and reaches the dispatcher while a training job is active
returns already_training, launches no job and leaves the Training slot
taken — so of two concurrent callers during an active job, none (not
exactly one) receives started_training; when no job is active the call
returns started_training and launches exactly one job, taking the slot. -/
theorem startTraining_single_flight (s : EngineState) (r : StartTrainingRequest)
    (dm dm2 : DataManager) (i : Nat)
    (hdm : alookup r.pod s.data_managers = some dm)
    (hconn : r.pod ∈ s.connector_managers)
    (hec : epochCheck dm r.epoch_time = Sum.inr dm2)
    (hloc : get_loc_ffill dm2.table_index dm2.param.epoch_time = some i)
    (hdata : ¬ dm2.table_index.length - i < dm2.window_span) :
    (s.training_active = true →
      (StartTraining s r).outcome = STOutcome.resp ⟨"already_training", "", false⟩ ∧
      (StartTraining s r).state.jobs = s.jobs ∧
      (StartTraining s r).state.training_active = true ∧
      (StartTraining s r).dispatched = false) ∧
    (s.training_active = false →
      (StartTraining s r).outcome = STOutcome.resp ⟨"started_training", "", false⟩ ∧
      (StartTraining s r).state.jobs = s.jobs ++ [stJob r] ∧
      (StartTraining s r).state.training_active = true ∧
      (StartTraining s r).dispatched = true) := by
  have hst : StartTraining s r = afterEpoch s r dm2 := by
    rw [StartTraining_eq_some s r dm hdm, if_pos hconn, hec]
  rw [hst]
  unfold afterEpoch
  rw [hloc]
  simp only [if_neg hdata, dispatch_train_agent]
  constructor
  · intro hact
    have ha : (stUpd s r dm2).training_active = true := hact
    simp [ha, stUpd, hact]
  · intro hact
    have ha : (stUpd s r dm2).training_active = false := hact
    simp [ha, stUpd, hact]

theorem startTraining_single_flight_witness :
    (StartTraining sIdleEx reqEx).outcome = STOutcome.resp ⟨"started_training", "", false⟩ ∧
    (StartTraining sIdleEx reqEx).state.jobs = sIdleEx.jobs ++ [stJob reqEx] ∧
    (StartTraining sIdleEx reqEx).state.training_active = true ∧
    (StartTraining sIdleEx reqEx).dispatched = true :=
  (startTraining_single_flight sIdleEx reqEx dmEx dmEx 1 (by decide) (by decide)
    (by decide) (by decide) (by decide)).2 rfl

/-- C6: per-pod epoch monotonicity: across any sequence of StartTraining
calls, the stored epoch_time never decreases; and a request attempting to
move it backward (a nonzero epoch_time earlier than the stored one) is
rejected with epoch_time_invalid. -/
theorem startTraining_epoch_monotone :
    (∀ reqs s pod e e2, epochOf s pod = some e →
      epochOf (runStartTrainings s reqs) pod = some e2 → e ≤ e2) ∧
    (∀ s r dm, alookup r.pod s.data_managers = some dm →
      r.pod ∈ s.connector_managers → r.epoch_time ≠ 0 →
      r.epoch_time < dm.param.epoch_time →
      (StartTraining s r).outcome = STOutcome.resp (epochInvalidResp dm)) := by
  constructor
  · intro reqs
    induction reqs with
    | nil =>
      intro s pod e e2 h h2
      simp only [runStartTrainings] at h2
      rw [h] at h2
      exact le_of_eq (Option.some.inj h2)
    | cons r rest ih =>
      intro s pod e e2 h h2
      obtain ⟨e1, h1, hle1⟩ := epochOf_StartTraining_mono s r pod e h
      simp only [runStartTrainings] at h2
      exact le_trans hle1 (ih (StartTraining s r).state pod e1 e2 h1 h2)
  · intro s r dm hdm hconn hnz hlt
    rw [StartTraining_eq_some s r dm hdm, if_pos hconn,
      epochCheck_reject dm r.epoch_time hnz hlt]

theorem startTraining_epoch_monotone_witness :
    (100 : Int) ≤ 150 ∧
    (StartTraining sIdleEx reqBackEx).outcome = STOutcome.resp (epochInvalidResp dmEx) :=
  ⟨startTraining_epoch_monotone.1 [reqFwdEx] sIdleEx "p" 100 150 (by decide) (by decide),
   startTraining_epoch_monotone.2 sIdleEx reqBackEx dmEx (by decide) (by decide)
     (by decide) (by decide)⟩

/-- C9: the not_enough_data_for_training failure is not atomic: with a
valid nonzero epoch_time (not earlier than the stored epoch) the epoch
window is written before the data check, so the call reports the error
while the pod's epoch_time and end_time keep the newly written values. -/
theorem startTraining_not_enough_data_mutates (s : EngineState)
    (r : StartTrainingRequest) (dm : DataManager) (i : Nat)
    (hdm : alookup r.pod s.data_managers = some dm)
    (hconn : r.pod ∈ s.connector_managers)
    (hnz : r.epoch_time ≠ 0) (hge : ¬ r.epoch_time < dm.param.epoch_time)
    (hloc : get_loc_ffill dm.table_index r.epoch_time = some i)
    (hins : dm.table_index.length - i < dm.window_span) :
    stResultCode (StartTraining s r) = some "not_enough_data_for_training" ∧
    epochOf (StartTraining s r).state r.pod = some r.epoch_time ∧
    endTimeOf (StartTraining s r).state r.pod =
      some (r.epoch_time + dm.param.period_secs) := by
  have hec : epochCheck dm r.epoch_time = Sum.inr (epochUpdate dm r.epoch_time) :=
    epochCheck_advance dm r.epoch_time hnz hge
  have hloc2 : get_loc_ffill (epochUpdate dm r.epoch_time).table_index
      (epochUpdate dm r.epoch_time).param.epoch_time = some i := by
    rw [epochUpdate_table_index, epochUpdate_epoch]; exact hloc
  have hins2 : (epochUpdate dm r.epoch_time).table_index.length - i <
      (epochUpdate dm r.epoch_time).window_span := by
    rw [epochUpdate_table_index, epochUpdate_window_span]; exact hins
  have h := StartTraining_insufficient s r dm (epochUpdate dm r.epoch_time) i
    hdm hconn hec hloc2 hins2
  have hget : alookup r.pod (stUpd s r (epochUpdate dm r.epoch_time)).data_managers =
      some (epochUpdate dm r.epoch_time) :=
    alookup_aupdate_self r.pod (epochUpdate dm r.epoch_time) dm s.data_managers hdm
  refine ⟨?_, ?_, ?_⟩
  · rw [h]; rfl
  · rw [h]
    show epochOf (stUpd s r (epochUpdate dm r.epoch_time)) r.pod = _
    rw [epochOf, hget, Option.map_some', epochUpdate_epoch]
  · rw [h]
    show endTimeOf (stUpd s r (epochUpdate dm r.epoch_time)) r.pod = _
    rw [endTimeOf, hget, Option.map_some', epochUpdate_end]

theorem startTraining_not_enough_data_mutates_witness :
    stResultCode (StartTraining sShortEx reqFwdEx) = some "not_enough_data_for_training" ∧
    epochOf (StartTraining sShortEx reqFwdEx).state "p" = some 150 ∧
    endTimeOf (StartTraining sShortEx reqFwdEx).state "p" = some 210 :=
  startTraining_not_enough_data_mutates sShortEx reqFwdEx dmShortEx 3 (by decide)
    (by decide) (by decide) (by decide) (by decide) (by decide)

/-- C10: epoch_time 0 is the unspecified sentinel: when a StartTraining
request carries epoch_time 0 the epoch branch is skipped — every pod's
epoch window is unchanged and epoch_time_invalid is never returned — and
no StartTraining call can ever set a stored epoch_time to 0 (it can only
already have been 0). -/
theorem startTraining_epoch_zero_sentinel :
    (∀ s r pod, r.epoch_time = 0 →
      epochOf (StartTraining s r).state pod = epochOf s pod ∧
      endTimeOf (StartTraining s r).state pod = endTimeOf s pod ∧
      stResultCode (StartTraining s r) ≠ some "epoch_time_invalid") ∧
    (∀ s r pod, epochOf (StartTraining s r).state pod = some 0 →
      epochOf s pod = some 0) := by
  constructor
  · intro s r pod hz
    cases hdm : alookup r.pod s.data_managers with
    | none =>
      rw [StartTraining_eq_none s r hdm]
      exact ⟨rfl, rfl, by simp [stResultCode, codeOf]⟩
    | some dm =>
      by_cases hconn : r.pod ∈ s.connector_managers
      · have hst : StartTraining s r = afterEpoch s r dm := by
          rw [StartTraining_eq_some s r dm hdm, if_pos hconn, hz, epochCheck_zero]
        have hdmgr : (afterEpoch s r dm).state.data_managers =
            aupdate r.pod dm s.data_managers := by
          rcases afterEpoch_state_cases s r dm with hc | hc <;> rw [hc] <;> rfl
        refine ⟨?_, ?_, ?_⟩
        · rw [hst, epochOf, hdmgr]
          by_cases hq : pod = r.pod
          · subst hq
            rw [alookup_aupdate_self r.pod dm dm s.data_managers hdm, epochOf, hdm]
          · rw [alookup_aupdate_ne r.pod pod dm s.data_managers hq, epochOf]
        · rw [hst, endTimeOf, hdmgr]
          by_cases hq : pod = r.pod
          · subst hq
            rw [alookup_aupdate_self r.pod dm dm s.data_managers hdm, endTimeOf, hdm]
          · rw [alookup_aupdate_ne r.pod pod dm s.data_managers hq, endTimeOf]
        · rw [hst]
          rcases afterEpoch_outcome_cases s r dm with hc | hc | hc | hc <;>
            rw [stResultCode, hc] <;> simp [codeOf]
      · rw [StartTraining_eq_some s r dm hdm, if_neg hconn]
        exact ⟨rfl, rfl, by simp [stResultCode, codeOf]⟩
  · intro s r pod h
    rcases StartTraining_state_cases s r with hst | ⟨dm, dm2, hdm, hec, hcase⟩
    · rw [hst] at h; exact h
    · have hdmgr : (StartTraining s r).state.data_managers =
          aupdate r.pod dm2 s.data_managers := by
        rcases hcase with hc | hc <;> rw [hc] <;> rfl
      by_cases hq : pod = r.pod
      · subst hq
        rw [epochOf, hdmgr, alookup_aupdate_self r.pod dm2 dm s.data_managers hdm,
          Option.map_some'] at h
        have h0 : dm2.param.epoch_time = 0 := Option.some.inj h
        rcases epochCheck_inr dm dm2 r.epoch_time hec with hd | ⟨hnz, _, hd⟩
        · rw [epochOf, hdm, Option.map_some', ← hd, h0]
        · exfalso
          apply hnz
          rw [hd, epochUpdate_epoch] at h0
          exact h0
      · rw [epochOf, hdmgr, alookup_aupdate_ne r.pod pod dm2 s.data_managers hq,
          ← epochOf] at h
        exact h

theorem startTraining_epoch_zero_sentinel_witness :
    epochOf (StartTraining sIdleEx reqEx).state "p" = epochOf sIdleEx "p" ∧
    endTimeOf (StartTraining sIdleEx reqEx).state "p" = endTimeOf sIdleEx "p" ∧
    stResultCode (StartTraining sIdleEx reqEx) ≠ some "epoch_time_invalid" :=
  startTraining_epoch_zero_sentinel.1 sIdleEx reqEx "p" rfl

theorem Init_snd (vr : List (String × String) → String → Bool) (s : EngineState)
    (r : InitRequest) :
    (Init vr s r).2 = s ∨
    (Init vr s r).2 = { s with work_queue := s.work_queue ++ [Command.initCmd r] } := by
  unfold Init
  split
  · left; rfl
  · split
    · left; rfl
    · split
      · left; rfl
      · right; rfl

theorem podsCovered_initial : PodsCovered initialState := by
  constructor
  · intro pod path h
    simp [initialState, alookup] at h
  · intro j hj
    simp [initialState] at hj

theorem podsCovered_step (s t : EngineState) (hstep : Step s t)
    (hs : PodsCovered s) : PodsCovered t := by
  obtain ⟨hs1, hs2⟩ := hs
  cases hstep with
  | add_data pod => exact ⟨hs1, hs2⟩
  | init_req vr r =>
    rcases Init_snd vr s r with h | h <;> rw [h] <;> exact ⟨hs1, hs2⟩
  | proc_init pod dm =>
    constructor
    · intro p path h
      exact hasKey_aset_of_hasKey pod p dm s.data_managers (hs1 p path h)
    · intro j hj
      exact hasKey_aset_of_hasKey pod j.pod dm s.data_managers (hs2 j hj)
  | start_training r =>
    constructor
    · intro p path h
      rw [StartTraining_state_saved_models] at h
      rw [StartTraining_state_hasKey]
      exact hs1 p path h
    · intro j hj
      rcases StartTraining_state_jobs_mem s r j hj with hmem | ⟨heq, hk⟩
      · rw [StartTraining_state_hasKey]
        exact hs2 j hmem
      · rw [StartTraining_state_hasKey, heq]
        exact hk
  | import_model w r =>
    by_cases h1 : hasKey r.pod s.data_managers = false
    · have h : (ImportModel w s r).2 = s := by unfold ImportModel; rw [if_pos h1]
      rw [h]; exact ⟨hs1, hs2⟩
    · by_cases h2 : w.meta_exists r.import_path = false
      · have h : (ImportModel w s r).2 = s := by
          unfold ImportModel; rw [if_neg h1, if_pos h2]
        rw [h]; exact ⟨hs1, hs2⟩
      · by_cases h3 : w.load_ok (w.meta_algorithm r.import_path) r.import_path = false
        · have h : (ImportModel w s r).2 = s := by
            unfold ImportModel; rw [if_neg h1, if_neg h2, if_pos h3]
          rw [h]; exact ⟨hs1, hs2⟩
        · have h : (ImportModel w s r).2 =
              { s with saved_models := aset r.pod r.import_path s.saved_models } := by
            unfold ImportModel; rw [if_neg h1, if_neg h2, if_neg h3]
          rw [h]
          have hkr : hasKey r.pod s.data_managers = true := by
            cases hc : hasKey r.pod s.data_managers
            · exact absurd hc h1
            · rfl
          constructor
          · intro p path hp
            by_cases hq : p = r.pod
            · subst hq; exact hkr
            · have hp2 : alookup p (aset r.pod r.import_path s.saved_models) = some path := hp
              rw [alookup_aset_ne r.pod p r.import_path s.saved_models hq] at hp2
              exact hs1 p path hp2
          · intro j hj
            exact hs2 j hj
  | complete p j hj =>
    cases p with
    | none => exact ⟨hs1, hs2⟩
    | some path =>
      constructor
      · intro q qpath hq
        by_cases hqeq : q = j.pod
        · subst hqeq; exact hs2 j hj
        · have hq2 : alookup q (aset j.pod path s.saved_models) = some qpath := hq
          rw [alookup_aset_ne j.pod q path s.saved_models hqeq] at hq2
          exact hs1 q qpath hq2
      · intro j2 hj2
        exact hs2 j2 hj2

theorem podsCovered_reachable (s : EngineState) (h : Reachable s) : PodsCovered s := by
  induction h with
  | refl => exact podsCovered_initial
  | step hr hstep ih => exact podsCovered_step _ _ hstep ih

/-- C8: model-record implies initialized: in every reachable state, a pod
holding a record in the model registry (written by ImportModel after its
initialization check, or by completion of a dispatched job — and never
deleted, since no operation removes a pod) is also a key of the Pod
Registry; consequently ExportModel can never reach the pod_not_initialized
branch (the branch whose misspelled constructor keyword would raise) for
such a pod. -/
theorem savedModel_implies_initialized (s : EngineState) (pod path tag : String)
    (hreach : Reachable s) (hrec : alookup pod s.saved_models = some path) :
    hasKey pod s.data_managers = true ∧
    ExportModel s ⟨pod, tag⟩ ≠ ExportOutcome.raiseUnknownField := by
  have hinv := podsCovered_reachable s hreach
  have hk := hinv.1 pod path hrec
  refine ⟨hk, ?_⟩
  unfold ExportModel
  rw [hrec]
  by_cases htag : tag = "latest" <;> simp [hk, htag]

theorem savedModel_implies_initialized_witness :
    hasKey "p" sImportedEx.data_managers = true ∧
    ExportModel sImportedEx ⟨"p", "latest"⟩ ≠ ExportOutcome.raiseUnknownField :=
  savedModel_implies_initialized sImportedEx "p" "/models/p" "latest"
    (Reachable.step (Reachable.step Reachable.refl (Step.proc_init initialState "p" dmEx))
      (Step.import_model sInitEx wTrueEx ⟨"p", "/models/p"⟩))
    (by decide)

end AIEngineMain
